import Mathlib

/-!
Verification of the natural-language specification of the `arango-python`
client library against its code.

The repository's only component with non-trivial logic is the AQL query
builder (`arango.aql.AQLQuery` / `F` function wrappers).  The module
`arango/aql.py` itself is not part of the source tree given here (only its
test suite `arango/tests/tests_aql.py` is), so the builder is modelled from
the specification text; the model is written against the spec's data model
(section 3), the public contract and rendering algorithm (section 4.1) and
the error taxonomy (section 7).  The proxy classes `Edge` (`arango/edge.py`)
and `Collections` (`arango/collection.py`) are present in the source tree
and are embedded directly from the code.

Python builders nest by reference and tests mutate children after
composition, so the embedding uses an explicit store (builder id ->
builder state) and renders through the store; the renderer carries a fuel
argument that models Python's finite call stack (a cyclic builder graph
would not terminate in Python either).
-/

set_option autoImplicit false
set_option linter.unusedVariables false

deriving instance DecidableEq for Except

namespace ArangoAql

/-- Modelled from the spec: an expression as used in LET bindings, RETURN
field values and FunctionWrapper arguments.  Per spec section 4.2/9 it is a
closed variant with exactly three cases: literal text, a function call
(FunctionWrapper: a name with an ordered argument list), or a nested
QueryBuilder.  Builders nest by reference (spec section 3, "Ownership"), so
the nested-builder case holds a store index rather than a builder value. -/
inductive AqlExpr where
  | str (s : String)
  | sub (i : Nat)
  | func (name : String) (args : List AqlExpr)

/-- Modelled from the spec: the source of one FOR clause.  A source is
either a collection name, a nested builder supplied through `over`
(rendered inline, parenthesised, spec section 4.1 step 1), or a nested
builder supplied through `nested` (rendered as a sibling clause, spec
section 4.1 step 1). -/
inductive ForSource where
  | coll (name : String)
  | inline (i : Nat)
  | sibling (i : Nat)
deriving DecidableEq

/-- Modelled from the spec: one `FOR <var> IN <source>` clause ("builder
clause" in the glossary).  The variable defaults to `obj`; the source may
still be unset, in which case building fails (spec sections 4.1/7). -/
structure ForClause where
  var : String
  src : Option ForSource
deriving DecidableEq

/-- Modelled from the spec: the result specification of `result(...)`:
either a bare variable name or a mapping from output field name to
expression (spec section 4.1, `result`). -/
inductive ResultSpec where
  | bare (v : String)
  | fields (fs : List (String × AqlExpr))

/-- Modelled from the spec: the accumulated state of an `AQLQuery` builder:
an ordered chain of FOR clauses, the LET bindings in declaration order, and
the optional result specification (spec section 3, "QueryBuilder"). -/
structure QueryState where
  clauses : List ForClause
  lets : List (String × AqlExpr)
  res : Option ResultSpec

/-- The store of builder objects: Python builders are mutable heap objects
referenced by other builders, modelled as an association list from builder
id to builder state. -/
def Store : Type := List (Nat × QueryState)

/-- Look a builder up in the store. -/
def Store.get? (s : Store) (i : Nat) : Option QueryState :=
  match s with
  | [] => none
  | (j, q) :: rest => if j = i then some q else Store.get? rest i

/-- Replace (or add) the state of builder `i`; models in-place mutation of
a Python builder object. -/
def Store.set (s : Store) (i : Nat) (q : QueryState) : Store :=
  match s with
  | [] => [(i, q)]
  | (j, q') :: rest => if j = i then (j, q) :: rest else (j, q') :: Store.set rest i q

/-- Modelled from the spec: the `AQLQuery` constructor.  It starts with a
single FOR clause whose iteration variable defaults to `obj` (spec section
4.1, `iterate`); the optional `collection` keyword sets that clause's
source (spec section 4.1, constructor-with-collection). -/
def AQLQuery.init (collection : Option String) : QueryState :=
  ⟨[⟨"obj", collection.map ForSource.coll⟩], [], none⟩

/-- Apply an update to the most recently added FOR clause (spec section
4.1: "`over`/`iterate` mutate the most-recently-added clause"). -/
def updateLast (f : ForClause → ForClause) : List ForClause → List ForClause
  | [] => []
  | [c] => [f c]
  | c :: c' :: rest => c :: updateLast f (c' :: rest)

/-- Modelled from the spec: `iterate(varName)` sets the iteration variable
of the most recently added clause (spec section 4.1). -/
def QueryState.iter (q : QueryState) (v : String) : QueryState :=
  { q with clauses := updateLast (fun c => { c with var := v }) q.clauses }

/-- Modelled from the spec: `over(source)` replaces the source of the most
recently added clause; it accepts a collection name or another builder
(spec section 4.1, `over`). -/
def QueryState.over (q : QueryState) (s : ForSource) : QueryState :=
  { q with clauses := updateLast (fun c => { c with src := some s }) q.clauses }

/-- Modelled from the spec: `nested(otherBuilder)` appends a second,
sequential FOR clause referring to the child builder (spec section 4.1,
`nested`).  The appended clause's iteration variable is generated from the
clause position; the spec's worked example (section 8) fixes the second
clause's variable to `obj1`. -/
def QueryState.nested (q : QueryState) (child : Nat) : QueryState :=
  { q with clauses :=
      q.clauses ++ [⟨"obj" ++ toString q.clauses.length, some (ForSource.sibling child)⟩] }

/-- Modelled from the spec: `let(name, expression)` appends a named binding
in declaration order (spec section 4.1, `let`). -/
def QueryState.letBind (q : QueryState) (n : String) (e : AqlExpr) : QueryState :=
  { q with lets := q.lets ++ [(n, e)] }

/-- Modelled from the spec: `result(...)` sets the result specification;
only one specification is active, last call wins (spec section 4.1,
`result`). -/
def QueryState.result (q : QueryState) (r : ResultSpec) : QueryState :=
  { q with res := some r }

/-- Modelled from the spec: the builder's error taxonomy (spec section 7).
`missingSource` is the configuration error raised when no source is set;
`unknownRef` marks a dangling store reference (unreachable for stores built
from real object graphs); `outOfFuel` models Python's recursion limit on a
cyclic builder graph. -/
inductive AqlError where
  | missingSource
  | unknownRef
  | outOfFuel
deriving DecidableEq

/-- Lexicographic code-point comparison on character lists (the order used
to sort field-mapping keys). -/
def charsLt : List Char → List Char → Bool
  | [], [] => false
  | [], _ :: _ => true
  | _ :: _, [] => false
  | a :: as, b :: bs =>
      if a.toNat < b.toNat then true
      else if b.toNat < a.toNat then false
      else charsLt as bs

/-- Lexicographic comparison of strings by code point. -/
def strLt (a b : String) : Bool := charsLt a.data b.data

/-- The field mapping renders in a deterministic order; the spec leaves the
order unspecified and explicitly allows a deterministic (e.g. sorted)
order (spec sections 4.1 step 3 and 9).  The model sorts pairs by key with
a stable insertion sort. -/
def insertPair (p : String × AqlExpr) :
    List (String × AqlExpr) → List (String × AqlExpr)
  | [] => [p]
  | q :: rest => if strLt p.1 q.1 then p :: q :: rest else q :: insertPair p rest

/-- Sort a field mapping by key (see `insertPair`). -/
def sortPairs : List (String × AqlExpr) → List (String × AqlExpr)
  | [] => []
  | p :: rest => insertPair p (sortPairs rest)

/-- The text of a literal-string expression (used to state what the
renderer produces on string-valued field mappings). -/
def exprStr : AqlExpr → String
  | .str s => s
  | .sub _ => ""
  | .func _ _ => ""

mutual
/-- Modelled from the spec: render an expression in LET-value / field-value
position (spec section 4.1 step 4): a string is emitted verbatim, a
FunctionWrapper emits `NAME(args...)`, and a nested builder is inlined
parenthesised (`( FOR ... RETURN ... )`).  `subq` renders a referenced
builder's full query (supplied by the store-level renderer). -/
def renderExpr (subq : Nat → Except AqlError String) :
    AqlExpr → Except AqlError String
  | .str s => .ok s
  | .sub i => do
      let r ← subq i
      .ok ("( " ++ r ++ " )")
  | .func name args => do
      let rs ← renderArgs subq args
      .ok (name ++ "(" ++ rs ++ ")")

/-- Render a FunctionWrapper argument list, comma separated (spec section
4.1 step 4). -/
def renderArgs (subq : Nat → Except AqlError String) :
    List AqlExpr → Except AqlError String
  | [] => .ok ""
  | [e] => renderFuncArg subq e
  | e :: e' :: rest => do
      let r ← renderFuncArg subq e
      let rs ← renderArgs subq (e' :: rest)
      .ok (r ++ ", " ++ rs)

/-- Render one FunctionWrapper argument: a builder argument renders as that
builder's full clause sequence inlined inside the function's parentheses
(spec section 4.1 step 4: `LENGTH( FOR obj IN coll RETURN obj )`); other
arguments render as in expression position. -/
def renderFuncArg (subq : Nat → Except AqlError String) :
    AqlExpr → Except AqlError String
  | .str s => .ok s
  | .sub i => do
      let r ← subq i
      .ok (" " ++ r ++ " ")
  | .func name args => do
      let rs ← renderArgs subq args
      .ok (name ++ "(" ++ rs ++ ")")
end

/-- Render one field-mapping pair as `"key": expr` (spec section 4.1
step 3). -/
def renderPair (subq : Nat → Except AqlError String) (p : String × AqlExpr) :
    Except AqlError String := do
  let r ← renderExpr subq p.2
  .ok ("\"" ++ p.1 ++ "\": " ++ r)

/-- Render every field-mapping pair. -/
def renderPairs (subq : Nat → Except AqlError String) :
    List (String × AqlExpr) → Except AqlError (List String)
  | [] => .ok []
  | p :: rest => do
      let r ← renderPair subq p
      let rs ← renderPairs subq rest
      .ok (r :: rs)

/-- Modelled from the spec: render the RETURN payload (spec section 4.1
step 3): a bare variable verbatim, a field mapping as an object literal;
when no result specification was given, the iteration variable is returned
(default `obj`). -/
def renderResult (subq : Nat → Except AqlError String) (defaultVar : String) :
    Option ResultSpec → Except AqlError String
  | none => .ok defaultVar
  | some (.bare v) => .ok v
  | some (.fields fs) => do
      let rs ← renderPairs subq (sortPairs fs)
      .ok ("\x7b" ++ String.intercalate ", " rs ++ "\x7d")

/-- Modelled from the spec: render the LET bindings, one `LET name = expr`
clause per binding, in declaration order (spec section 4.1 step 2). -/
def renderLets (subq : Nat → Except AqlError String) :
    List (String × AqlExpr) → Except AqlError (List String)
  | [] => .ok []
  | (n, e) :: rest => do
      let r ← renderExpr subq e
      let rs ← renderLets subq rest
      .ok (("LET " ++ n ++ " = " ++ r) :: rs)

/-- Modelled from the spec: render the FOR clauses in order (spec section
4.1 step 1); a clause without a source raises the missing-source
configuration error (spec section 7).  `srcT` resolves a clause source to
its textual form. -/
def renderClauses (srcT : ForSource → Except AqlError String) :
    List ForClause → Except AqlError (List String)
  | [] => .ok []
  | c :: rest =>
      match c.src with
      | none => .error .missingSource
      | some s => do
          let t ← srcT s
          let rs ← renderClauses srcT rest
          .ok (("FOR " ++ c.var ++ " IN " ++ t) :: rs)

/-- The default RETURN variable of a builder: its first clause's iteration
variable (`obj` when the clause chain is empty). -/
def headVar : List ForClause → String
  | [] => "obj"
  | c :: _ => c.var

/-- A rendering task: either build a referenced builder's full query, or
resolve a clause source to its textual form. -/
inductive RTask where
  | build (i : Nat)
  | source (s : ForSource)

/-- Modelled from the spec: the recursive rendering algorithm (spec section
4.1): `FOR` clauses, then `LET` clauses, then the `RETURN` clause, joined
by single spaces (whitespace between tokens is insignificant, spec section
4.1 `build`).  A source that is a collection name renders verbatim; a
builder source set through `over` renders as a parenthesised sub-query; a
builder source attached through `nested` renders as a sibling clause over
that builder's own source.  The fuel argument models Python's finite call
stack on the reference graph. -/
def render : Nat → Store → RTask → Except AqlError String
  | 0, _, _ => .error .outOfFuel
  | fuel+1, store, .build i =>
      match Store.get? store i with
      | none => .error .unknownRef
      | some q => do
          let forStrs ← renderClauses (fun s => render fuel store (.source s)) q.clauses
          let letStrs ← renderLets (fun j => render fuel store (.build j)) q.lets
          let resStr ← renderResult (fun j => render fuel store (.build j))
            (headVar q.clauses) q.res
          .ok (String.intercalate " " (forStrs ++ letStrs ++ ["RETURN " ++ resStr]))
  | fuel+1, store, .source s =>
      match s with
      | .coll name => .ok name
      | .inline i => do
          let r ← render fuel store (.build i)
          .ok ("( " ++ r ++ " )")
      | .sibling i =>
          match Store.get? store i with
          | none => .error .unknownRef
          | some q =>
            match q.clauses with
            | [] => .error .missingSource
            | c :: _ =>
              match c.src with
              | none => .error .missingSource
              | some s' => render fuel store (.source s')

/-- Modelled from the spec: `build_query()` renders the full query from the
accumulated state.  Building has no side effect beyond reading the builder
graph (spec section 4.1, "Side effects: none beyond in-memory state
mutation; `build()` is a pure function of the accumulated state"), so the
store comes back unchanged. -/
def build_query (fuel : Nat) (store : Store) (i : Nat) :
    Except AqlError String × Store :=
  (render fuel store (.build i), store)

/-- Modelled from the spec: the `F` FunctionWrapper factory; `F.LENGTH(x)`
wraps its argument in the LENGTH query function (spec section 2,
"FunctionWrapper"). -/
def F.LENGTH (e : AqlExpr) : AqlExpr := .func "LENGTH" [e]

end ArangoAql

/-! ## Generic string-keyed association lists

Python objects store attributes in a mutable mapping and `dict`s are
string-keyed mappings; both are embedded as association lists with
first-match lookup and replace-or-append assignment. -/

/-- First-match lookup in a string-keyed association list. -/
def lookupKey {α : Type} : List (String × α) → String → Option α
  | [], _ => none
  | (k', v) :: rest, k => if k' = k then some v else lookupKey rest k

/-- Replace the binding of `k` (or append one): Python attribute / dict-key
assignment. -/
def setKey {α : Type} : List (String × α) → String → α → List (String × α)
  | [], k, v => [(k, v)]
  | (k', v') :: rest, k, v =>
      if k' = k then (k', v) :: rest else (k', v') :: setKey rest k v

namespace ArangoEdge

/-! ## Embedding of `arango/edge.py` (class `Edge`)

An `Edge` is a Python object whose state is its attribute dictionary; the
values stored there are embedded as a small Python-value universe.  The
HTTP layer is external: each method that performs a request takes the
response it would receive as a parameter, and the PUT request that
`Edge.save` would issue is returned explicitly so that theorems can talk
about whether it was issued. -/

/-- A Python value as handled by `Edge`: `None`, booleans, integers,
strings, string-keyed dicts (also used for parsed JSON responses),
`Document` instances (carrying their id, cf. `arango/document.py` usage in
`edge.py`), and other opaque objects (connection, collection, self). -/
inductive PyVal where
  | none
  | bool (b : Bool)
  | int (n : Int)
  | str (s : String)
  | dict (fields : List (String × PyVal))
  | doc (docId : PyVal)
  | obj (id : Nat)

/-- Python truthiness of the embedded values (`not x` in the source). -/
def truthy : PyVal → Bool
  | .none => false
  | .bool b => b
  | .int n => !(n == 0)
  | .str s => !(s == "")
  | .dict l => !l.isEmpty
  | .doc _ => true
  | .obj _ => true

/-- Is the value Python's `None`?  (`x != None` in the source.) -/
def isNone : PyVal → Bool
  | .none => true
  | _ => false

/-- `d.get(k, default)` on an embedded dict body. -/
def dictGet (l : List (String × PyVal)) (k : String) (d : PyVal) : PyVal :=
  match lookupKey l k with
  | Option.none => d
  | some v => v

/-- `d.update(patch)` on an embedded dict body: assign every key of the
patch in order. -/
def dictUpdate (l : List (String × PyVal)) : List (String × PyVal) → List (String × PyVal)
  | [] => l
  | (k, v) :: rest => dictUpdate (setKey l k v) rest

/-- The errors `Edge`'s methods can raise: Python `AttributeError` (with
the accessed attribute name), Python `TypeError`, and the module's own
exceptions (`arango/edge.py` lines 5-8). -/
inductive PyErr where
  | attributeError (name : String)
  | typeError
  | edgeAlreadyCreated
  | edgeNotYetCreated
  | edgeIncompatibleDataType
deriving DecidableEq

/-- The attribute dictionary of an `Edge` instance. -/
def EdgeAttrs : Type := List (String × PyVal)

/-- `response.get("code", 500) == c` on a response mapping: the code
defaults to 500, and comparing a non-integer code to an integer is `False`
(`edge.py` lines 320, 395). -/
def codeIs (response : PyVal) (c : Int) : Bool :=
  match response with
  | .dict l =>
      match dictGet l "code" (.int 500) with
      | .int n => n == c
      | _ => false
  | _ => false

/-- `response.get("_rev")` on a response mapping (`edge.py` line 396). -/
def revOf (response : PyVal) : PyVal :=
  match response with
  | .dict l => dictGet l "_rev" .none
  | _ => .none

/-- An HTTP PUT request as issued by `Edge.save` (`edge.py` lines 386-390):
the edge id interpolated into `UPDATE_EDGE_PATH` and the request body. -/
structure PutReq where
  edgeId : PyVal
  data : PyVal

/-- `Edge.__init__` (`edge.py` lines 123-136): the attributes every new
`Edge` object gets.  No attribute named `edge` is among them. -/
def Edge.init (connection collection idv rev fr toh : PyVal) : EdgeAttrs :=
  [("connection", connection), ("collection", collection),
   ("_body", .none), ("_id", idv), ("_rev", rev), ("_from", fr), ("_to", toh),
   ("_from_document", .none), ("_to_document", .none)]

/-- Python attribute read: `AttributeError` when the attribute was never
assigned. -/
def getattr (a : EdgeAttrs) (k : String) : Except PyErr PyVal :=
  match lookupKey a k with
  | Option.none => .error (.attributeError k)
  | some v => .ok v

/-- `Edge.parse_edge_response` (`edge.py` lines 245-253): pulls `_id`,
`_rev`, `_from`, `_to` out of the response and stores the response as the
body. -/
def Edge.parse_edge_response (a : EdgeAttrs) (response : PyVal) : EdgeAttrs :=
  let g := fun k =>
    match response with
    | .dict l => dictGet l k .none
    | _ => .none
  setKey (setKey (setKey (setKey (setKey a "_id" (g "_id")) "_rev" (g "_rev"))
    "_from" (g "_from")) "_to" (g "_to")) "_body" response

/-- `Edge.get` (`edge.py` lines 224-243): returns the default when the body
is falsy, the whole body for `name=None`, and a dict lookup otherwise
(a truthy non-dict body would make `self._body.get` raise
`AttributeError`). -/
def Edge.get (a : EdgeAttrs) (name : Option String) (default : PyVal) :
    Except PyErr PyVal :=
  match getattr a "_body" with
  | .error e => .error e
  | .ok b =>
      if truthy b = false then .ok default
      else
        match name with
        | Option.none => .ok b
        | some n =>
            match b with
            | .dict l => .ok (dictGet l n default)
            | _ => .error (.attributeError "get")

/-- `Edge.__setitem__` (`edge.py` lines 209-212): `self._body[name] = value`
(`TypeError` when the body is not a dict, e.g. still `None`). -/
def Edge.setitem (a : EdgeAttrs) (name : String) (v : PyVal) :
    Except PyErr PyVal × EdgeAttrs :=
  match lookupKey a "_body" with
  | Option.none => (.error (.attributeError "_body"), a)
  | some (.dict l) => (.ok .none, setKey a "_body" (.dict (setKey l name v)))
  | some _ => (.error .typeError, a)

/-- The `Edge.from_document` property (`edge.py` lines 147-161): `None`
without a `_from` handle, otherwise a lazily cached `Document` built from
it. -/
def Edge.from_document (a : EdgeAttrs) : PyVal × EdgeAttrs :=
  let frv := (lookupKey a "_from").getD .none
  if truthy frv = false then (.none, a)
  else
    let cur := (lookupKey a "_from_document").getD .none
    if truthy cur = false then
      let d := PyVal.doc frv
      (d, setKey a "_from_document" d)
    else (cur, a)

/-- The `Edge.to_document` property (`edge.py` lines 163-177), symmetric to
`from_document`. -/
def Edge.to_document (a : EdgeAttrs) : PyVal × EdgeAttrs :=
  let tov := (lookupKey a "_to").getD .none
  if truthy tov = false then (.none, a)
  else
    let cur := (lookupKey a "_to_document").getD .none
    if truthy cur = false then
      let d := PyVal.doc tov
      (d, setKey a "_to_document" d)
    else (cur, a)

/-- `Edge.create` (`edge.py` lines 255-307): refuses an already created
edge, POSTs (HTTP not modelled; the response and its status are
parameters), stores the response and, on 201/202, parses it into the
attributes.  Returns `self` (modelled as an opaque object). -/
def Edge.create (a : EdgeAttrs) (from_doc to_doc body : PyVal)
    (respStatus : Int) (response : PyVal) : Except PyErr PyVal × EdgeAttrs :=
  match lookupKey a "_id" with
  | Option.none => (.error (.attributeError "_id"), a)
  | some idv =>
      if isNone idv = false then (.error .edgeAlreadyCreated, a)
      else
        -- `data = copy.copy(self.body) if self.body else {}` reads the body
        -- through the property; `from_doc`/`to_doc`/`body` only feed the
        -- POST request and mutate no attribute.
        match Edge.get a Option.none .none with
        | .error e => (.error e, a)
        | .ok _ =>
            let _ := (from_doc, to_doc, body)
            let a1 := setKey a "_response" response
            if respStatus = 201 ∨ respStatus = 202 then
              (.ok (.obj 0), Edge.parse_edge_response a1 response)
            else (.ok (.obj 0), a1)

/-- `Edge.delete` (`edge.py` lines 309-325): DELETEs (HTTP not modelled),
stores the response; on code 204 resets the parsed attributes and the
body and returns `True`, else `False`. -/
def Edge.delete (a : EdgeAttrs) (response : PyVal) : Except PyErr PyVal × EdgeAttrs :=
  let a1 := setKey a "_response" response
  if codeIs response 204 then
    (.ok (.bool true), setKey (Edge.parse_edge_response a1 (.dict [])) "_body" .none)
  else (.ok (.bool false), a1)

/-- `Edge.save` (`edge.py` lines 367-399).  Its first statement is
`data = copy.copy(self.edge)`: it reads the attribute `edge`.  When that
attribute was never assigned the method dies with `AttributeError` before
the PUT request is built; otherwise `data` must be a dict for
`data.update(...)`, the PUT is issued, the response stored, and on code
201/202 the revision is refreshed and `self` returned (else `None`). -/
def Edge.save (a : EdgeAttrs) (respDict : PyVal) :
    Except PyErr PyVal × EdgeAttrs × List PutReq :=
  match lookupKey a "edge" with
  | Option.none => (.error (.attributeError "edge"), a, [])
  | some v =>
      match v with
      | .dict l =>
          let fr := (lookupKey a "_from").getD .none
          let toh := (lookupKey a "_to").getD .none
          let data := PyVal.dict (dictUpdate l [("_from", fr), ("_to", toh)])
          let req : PutReq := ⟨(lookupKey a "_id").getD .none, data⟩
          let a1 := setKey a "_response" respDict
          if codeIs respDict 201 || codeIs respDict 202 then
            (.ok (.obj 0), setKey a1 "_rev" (revOf respDict), [req])
          else (.ok .none, a1, [req])
      | _ => (.error (.attributeError "update"), a, [])

/-- `from_doc_id = from_doc or self._from`, then replaced by `from_doc.id`
for a `Document` argument (`edge.py` lines 341-348). -/
def resolveDocId (arg cur : PyVal) : PyVal :=
  match arg with
  | .doc i => i
  | _ => if truthy arg then arg else cur

/-- The second half of `Edge.update` (`edge.py` lines 353-365), acting on
the attributes `a1` that already carry the new vertex handles: the body
must be a dict or `None` (else `EdgeIncompatibleDataType`), a dict body is
merged into the current body through the `body` property
(`self.body.update(body)` raises `AttributeError` when the current body is
falsy or not a dict), and with `save=True` the flow ends in `Edge.save`. -/
def Edge.updateBody (a1 : EdgeAttrs) (body : PyVal) (saveFlag : Bool)
    (respDict : PyVal) : Except PyErr PyVal × EdgeAttrs × List PutReq :=
  match body with
  | .dict bl =>
      match Edge.get a1 Option.none .none with
      | .error e => (.error e, a1, [])
      | .ok bv =>
          match bv with
          | .dict cur =>
              let a2 := setKey a1 "_body" (.dict (dictUpdate cur bl))
              if saveFlag then Edge.save a2 respDict
              else (.ok (.bool true), a2, [])
          | _ => (.error (.attributeError "update"), a1, [])
  | .none =>
      if saveFlag then Edge.save a1 respDict
      else (.ok (.bool true), a1, [])
  | _ => (.error .edgeIncompatibleDataType, a1, [])

/-- `Edge.update` (`edge.py` lines 327-365): requires `_id`, `_from` and
`_to` to be truthy, stores the resolved vertex handles, and continues with
`Edge.updateBody`. -/
def Edge.update (a0 : EdgeAttrs) (body from_doc to_doc : PyVal)
    (saveFlag : Bool) (respDict : PyVal) :
    Except PyErr PyVal × EdgeAttrs × List PutReq :=
  let idv := (lookupKey a0 "_id").getD .none
  let frv := (lookupKey a0 "_from").getD .none
  let tov := (lookupKey a0 "_to").getD .none
  if truthy idv = false ∨ truthy frv = false ∨ truthy tov = false then
    (.error .edgeNotYetCreated, a0, [])
  else
    let a1 := setKey (setKey a0 "_from" (resolveDocId from_doc frv))
      "_to" (resolveDocId to_doc tov)
    Edge.updateBody a1 body saveFlag respDict

/-- The attribute states an `Edge` object can actually be in: freshly
constructed, or the post-state of any method of the class (each quantified
over arbitrary arguments and HTTP responses). -/
inductive Reachable : EdgeAttrs → Prop where
  | init : ∀ conn coll idv rev fr toh, Reachable (Edge.init conn coll idv rev fr toh)
  | parse : ∀ a r, Reachable a → Reachable (Edge.parse_edge_response a r)
  | create : ∀ a fd td b st r, Reachable a → Reachable (Edge.create a fd td b st r).2
  | delete : ∀ a r, Reachable a → Reachable (Edge.delete a r).2
  | update : ∀ a b fd td s r, Reachable a → Reachable (Edge.update a b fd td s r).2.1
  | save : ∀ a r, Reachable a → Reachable (Edge.save a r).2.1
  | fromDoc : ∀ a, Reachable a → Reachable (Edge.from_document a).2
  | toDoc : ∀ a, Reachable a → Reachable (Edge.to_document a).2
  | setitem : ∀ a n v, Reachable a → Reachable (Edge.setitem a n v).2

end ArangoEdge

namespace ArangoCollections

/-! ## Embedding of `arango/collection.py` (classes `Collections`,
`Collection`)

Only the lazy-initialisation path of `Collections.__getattr__` and the
state `Collection.__init__` gives a new proxy are embedded; the connection
object is opaque (a type parameter).  The HTTP-performing methods of
`Collection` do not touch the cache and are not needed here. -/

/-- `Collection.__init__` state (`collection.py` lines 103-113): the
connection, the name, the id, the `createCollection` flag, and the three
lazily initialised sub-proxy caches (all `None` at construction; their
later contents are irrelevant here and are modelled opaquely). -/
structure Collection (α : Type) where
  connection : Option α
  name : Option String
  id : Option String
  createCollection : Bool
  documentsCache : Option Unit
  edgesCache : Option Unit
  indexCache : Option Unit

/-- Build the state `Collection.__init__` assigns. -/
def Collection.init {α : Type} (connection : Option α) (name : Option String)
    (id : Option String) (createCollection : Bool) : Collection α :=
  ⟨connection, name, id, createCollection, none, none, none⟩

/-- `Collections.__init__` (`collection.py` lines 22-24): a connection and
an empty cache dict. -/
structure Collections (α : Type) where
  connection : α
  collections : List (String × Collection α)

/-- A fresh `Collections` proxy. -/
def Collections.init {α : Type} (connection : α) : Collections α := ⟨connection, []⟩

/-- `Collections.__getattr__` (`collection.py` lines 36-52).  Python calls
it only for names that are not real attributes or methods of the class.
A cached name returns the cached proxy; otherwise a `Collection` with this
proxy's connection and the requested name is constructed, cached, and
returned. -/
def Collections.getattr {α : Type} (cs : Collections α) (name : String) :
    Collection α × Collections α :=
  match lookupKey cs.collections name with
  | some c => (c, cs)
  | Option.none =>
      let c : Collection α := Collection.init (some cs.connection) (some name) Option.none true
      (c, { cs with collections := setKey cs.collections name c })

end ArangoCollections

/-! ## Association-list lemmas -/

theorem lookupKey_setKey_ne {α : Type} (l : List (String × α)) (k k' : String) (v : α)
    (h : ¬ k = k') : lookupKey (setKey l k v) k' = lookupKey l k' := by
  induction l with
  | nil => simp [setKey, lookupKey, h]
  | cons p rest ih =>
      by_cases hk : p.1 = k
      · simp [setKey, lookupKey, hk, h]
      · simp [setKey, lookupKey, hk, ih]

theorem lookupKey_setKey_self {α : Type} (l : List (String × α)) (k : String) (v : α) :
    lookupKey (setKey l k v) k = some v := by
  induction l with
  | nil => simp [setKey, lookupKey]
  | cons p rest ih =>
      by_cases hk : p.1 = k
      · simp [setKey, lookupKey, hk]
      · simp [setKey, lookupKey, hk, ih]

namespace ArangoAql

/-! ## Lemmas about the AQL builder model -/

theorem insertPair_perm (p : String × AqlExpr) (l : List (String × AqlExpr)) :
    (insertPair p l).Perm (p :: l) := by
  induction l with
  | nil => simp [insertPair]
  | cons q rest ih =>
      cases h : strLt p.1 q.1 with
      | true => simp [insertPair, h]
      | false =>
          simp only [insertPair, h, Bool.false_eq_true, if_false]
          exact (ih.cons q).trans (List.Perm.swap p q rest)

theorem sortPairs_perm (l : List (String × AqlExpr)) : (sortPairs l).Perm l := by
  induction l with
  | nil => simp [sortPairs]
  | cons p rest ih =>
      exact (insertPair_perm p (sortPairs rest)).trans (ih.cons p)

theorem renderPairs_str (subq : Nat → Except AqlError String)
    (l : List (String × AqlExpr)) (h : ∀ p ∈ l, ∃ s, p.2 = AqlExpr.str s) :
    renderPairs subq l = .ok (l.map fun p => "\"" ++ p.1 ++ "\": " ++ exprStr p.2) := by
  induction l with
  | nil => rfl
  | cons p rest ih =>
      obtain ⟨s, hs⟩ := h p (List.mem_cons_self p rest)
      simp only [List.map_cons, renderPairs, renderPair, hs, renderExpr, exprStr,
        ih (fun q hq => h q (List.mem_cons_of_mem p hq))]
      rfl

theorem renderLets_str (subq : Nat → Except AqlError String)
    (ls : List (String × String)) :
    renderLets subq (ls.map fun p => (p.1, AqlExpr.str p.2)) =
      .ok (ls.map fun p => "LET " ++ p.1 ++ " = " ++ p.2) := by
  induction ls with
  | nil => rfl
  | cons p rest ih =>
      simp only [List.map_cons, renderLets, renderExpr, ih]
      rfl

theorem letBind_foldl (ls : List (String × String)) (q : QueryState) :
    ls.foldl (fun q p => q.letBind p.1 (AqlExpr.str p.2)) q =
      ⟨q.clauses, q.lets ++ ls.map (fun p => (p.1, AqlExpr.str p.2)), q.res⟩ := by
  induction ls generalizing q with
  | nil => simp
  | cons p rest ih =>
      rw [List.foldl_cons, ih]
      simp [QueryState.letBind, List.append_assoc]

/-! ## The claims about the AQL query builder (spec-modelled: `arango/aql.py`
is absent from the source tree, only `arango/tests/tests_aql.py` is
present, so the builder definitions above follow the spec's words) -/

/-- C1: for every AQLQuery constructed with only a collection name and no
further configuration, build_query() renders exactly the token sequence
`FOR obj IN <collection> RETURN obj` (the model emits the single-spaced
token sequence itself, which is the normal form under whitespace
normalization), the iteration variable defaulting to `obj`. -/
theorem c1_bare_collection_build (coll : String) :
    (build_query 8 [(0, AQLQuery.init (some coll))] 0).1 =
      .ok ("FOR obj IN " ++ coll ++ " RETURN obj") := by
  show Except.ok (("FOR " ++ "obj" ++ " IN " ++ coll) ++ " " ++ "RETURN obj") = _
  simp [String.append_assoc]

/-- C2: q1 over `user` nested with q2 over `membership`, with result
mapping user/member, builds exactly the token sequence
`FOR obj IN user FOR obj1 IN membership RETURN {"member": obj1, "user": obj}`:
nested() appends a second sequential FOR clause, while over() (second
conjunct) replaces the source of the same clause, leaving a single FOR. -/
theorem c2_nested_appends_for_clause :
    (build_query 8
        [(0, (((AQLQuery.init (some "user")).nested 1).result
            (.fields [("user", .str "obj"), ("member", .str "obj1")]))),
         (1, AQLQuery.init (some "membership"))] 0).1 =
      .ok "FOR obj IN user FOR obj1 IN membership RETURN \x7b\"member\": obj1, \"user\": obj\x7d" ∧
    (build_query 8 [(0, (AQLQuery.init (some "user")).over (.coll "membership"))] 0).1 =
      .ok "FOR obj IN membership RETURN obj" :=
  ⟨by decide, by decide⟩

/-- C3: a FunctionWrapper whose argument is a QueryBuilder renders as the
function name followed by the builder's full FOR...RETURN render inlined in
parentheses (first conjunct, for every function name, store and referenced
builder); in particular F.LENGTH over a builder over `membership`, used as
a field value, renders `LENGTH( FOR obj IN membership RETURN obj )` at that
position (second conjunct). -/
theorem c3_function_wrapper_inlines_subquery :
    (∀ (fuel : Nat) (store : Store) (name : String) (i : Nat),
      renderExpr (fun j => render fuel store (.build j)) (.func name [.sub i]) =
        (render fuel store (.build i)).map (fun r => name ++ "( " ++ r ++ " )")) ∧
    (build_query 8
        [(0, (AQLQuery.init (some "user")).result
            (.fields [("user", .str "obj"), ("members", F.LENGTH (.sub 1))])),
         (1, AQLQuery.init (some "membership"))] 0).1 =
      .ok "FOR obj IN user RETURN \x7b\"members\": LENGTH( FOR obj IN membership RETURN obj ), \"user\": obj\x7d" := by
  constructor
  · intro fuel store name i
    cases h : render fuel store (.build i) with
    | error e =>
        simp only [renderExpr, renderArgs, renderFuncArg, h, Except.map]
        rfl
    | ok r =>
        simp only [renderExpr, renderArgs, renderFuncArg, h, Except.map]
        show Except.ok (name ++ "(" ++ (" " ++ r ++ " ") ++ ")") = _
        refine congrArg Except.ok (String.ext ?_)
        simp [List.append_assoc]
  · decide

/-- C4: for every string-valued result field mapping with distinct keys,
the rendered RETURN object literal consists of exactly the mapping's
rendered key:value pairs as a set: the emitted pair list is a permutation
of the supplied mapping's pairs (the model emits them sorted by key, a
deterministic order the spec explicitly allows). -/
theorem c4_field_mapping_set_equivalence (coll : String)
    (fs : List (String × String)) (hnd : (fs.map Prod.fst).Nodup) :
    ∃ l : List String,
      l.Perm (fs.map fun p => "\"" ++ p.1 ++ "\": " ++ p.2) ∧
      (build_query 8 [(0, (AQLQuery.init (some coll)).result
          (.fields (fs.map fun p => (p.1, AqlExpr.str p.2))))] 0).1 =
        .ok ("FOR obj IN " ++ coll ++ " RETURN " ++
          ("\x7b" ++ String.intercalate ", " l ++ "\x7d")) := by
  clear hnd
  refine ⟨(sortPairs (fs.map fun p => (p.1, AqlExpr.str p.2))).map
    (fun p => "\"" ++ p.1 ++ "\": " ++ exprStr p.2), ?_, ?_⟩
  · refine ((sortPairs_perm _).map _).trans ?_
    rw [List.map_map]
    exact List.Perm.refl _
  · have hpairs := renderPairs_str
      (fun j => render 7 [(0, (AQLQuery.init (some coll)).result
        (.fields (fs.map fun p => (p.1, AqlExpr.str p.2))))] (.build j))
      (sortPairs (fs.map fun p => (p.1, AqlExpr.str p.2)))
      (by
        intro p hp
        have hp' := (sortPairs_perm _).mem_iff.mp hp
        obtain ⟨q, hq, rfl⟩ := List.mem_map.mp hp'
        exact ⟨q.2, rfl⟩)
    show Except.bind
        (Except.bind
          (renderPairs
            (fun j => render 7 [(0, (AQLQuery.init (some coll)).result
              (.fields (fs.map fun p => (p.1, AqlExpr.str p.2))))] (.build j))
            (sortPairs (fs.map fun p => (p.1, AqlExpr.str p.2))))
          (fun rs => Except.ok ("\x7b" ++ String.intercalate ", " rs ++ "\x7d")))
        (fun resStr => Except.ok (("FOR " ++ "obj" ++ " IN " ++ coll) ++ " " ++
          ("RETURN " ++ resStr))) = _
    rw [hpairs]
    show Except.ok (("FOR " ++ "obj" ++ " IN " ++ coll) ++ " " ++
      ("RETURN " ++ ("\x7b" ++ String.intercalate ", " _ ++ "\x7d"))) = _
    refine congrArg Except.ok (String.ext ?_)
    simp [List.append_assoc]

/-- C4 witness: the theorem applied to the field mapping of
`test_field_names` (keys distinct). -/
theorem c4_field_mapping_set_equivalence_witness :
    (([("user-first-name", "user.first_name"),
       ("user-last-name", "user.last_name")] : List (String × String)).map
        Prod.fst).Nodup ∧
    ∃ l : List String,
      l.Perm ([("user-first-name", "user.first_name"),
          ("user-last-name", "user.last_name")].map
        fun p => "\"" ++ p.1 ++ "\": " ++ p.2) ∧
      (build_query 8 [(0, (AQLQuery.init (some "users")).result
          (.fields ([("user-first-name", "user.first_name"),
            ("user-last-name", "user.last_name")].map
              fun p => (p.1, AqlExpr.str p.2))))] 0).1 =
        .ok ("FOR obj IN " ++ "users" ++ " RETURN " ++
          ("\x7b" ++ String.intercalate ", " l ++ "\x7d")) :=
  ⟨by decide, c4_field_mapping_set_equivalence "users"
    [("user-first-name", "user.first_name"),
     ("user-last-name", "user.last_name")] (by decide)⟩

/-- C5: every sequence of let(name, expression) calls renders one
`LET name = expression` clause per call, in insertion order, after the FOR
clauses and before RETURN (first conjunct, for every builder over a
collection and every sequence of string-valued let calls); a let expression
that is a FunctionWrapper over a raw string renders as `LET name = LENGTH(arg)`
(second conjunct, the `test_let_expr` scenario). -/
theorem c5_let_clauses_in_order :
    (∀ (coll : String) (ls : List (String × String)),
      (build_query 8 [(0, ls.foldl (fun q p => q.letBind p.1 (AqlExpr.str p.2))
          (AQLQuery.init (some coll)))] 0).1 =
        .ok (String.intercalate " " (("FOR obj IN " ++ coll) ::
          (ls.map fun p => "LET " ++ p.1 ++ " = " ++ p.2) ++ ["RETURN obj"]))) ∧
    (build_query 8 [(0, ((((AQLQuery.init (some "user")).letBind "name"
        (.str "u.first_name")).letBind "email" (F.LENGTH (.str "u.email"))).result
        (.fields [("name", .str "name"), ("email", .str "email")])))] 0).1 =
      .ok "FOR obj IN user LET name = u.first_name LET email = LENGTH(u.email) RETURN \x7b\"email\": email, \"name\": name\x7d" := by
  constructor
  · intro coll ls
    rw [letBind_foldl]
    have hlets := renderLets_str
      (fun j => render 7 [(0, (⟨[⟨"obj", some (.coll coll)⟩],
          ls.map fun p => (p.1, AqlExpr.str p.2), none⟩ : QueryState))] (.build j)) ls
    show Except.bind
        (renderLets
          (fun j => render 7 [(0, (⟨[⟨"obj", some (.coll coll)⟩],
            ls.map fun p => (p.1, AqlExpr.str p.2), none⟩ : QueryState))] (.build j))
          (ls.map fun p => (p.1, AqlExpr.str p.2)))
        (fun letStrs => Except.ok (String.intercalate " "
          (("FOR " ++ "obj" ++ " IN " ++ coll) :: (letStrs ++ ["RETURN " ++ "obj"])))) = _
    rw [hlets]
    show Except.ok (String.intercalate " "
      (("FOR " ++ "obj" ++ " IN " ++ coll) ::
        ((ls.map fun p => "LET " ++ p.1 ++ " = " ++ p.2) ++ ["RETURN " ++ "obj"]))) = _
    simp
  · decide

/-- C6: building an AQLQuery on which no source is configured anywhere in
its FOR-clause chain fails synchronously with the missing-source
configuration error instead of returning a rendered string. -/
theorem c6_missing_source_error (fuel : Nat) (store : Store) (i : Nat)
    (q : QueryState) (hget : Store.get? store i = some q)
    (hne : q.clauses ≠ []) (hsrc : ∀ c ∈ q.clauses, c.src = none) :
    (build_query (fuel+1) store i).1 = .error .missingSource := by
  obtain ⟨c, rest, hcl⟩ : ∃ c rest, q.clauses = c :: rest := by
    cases hq : q.clauses with
    | nil => exact absurd hq hne
    | cons c rest => exact ⟨c, rest, rfl⟩
  have hc : c.src = none := hsrc c (by rw [hcl]; exact List.mem_cons_self c rest)
  show render (fuel+1) store (.build i) = .error .missingSource
  simp only [render, hget, hcl, renderClauses, hc]
  rfl

/-- C6 witness: the theorem applied to a builder constructed with no
collection at all. -/
theorem c6_missing_source_error_witness :
    Store.get? [(0, AQLQuery.init none)] 0 = some (AQLQuery.init none) ∧
    (AQLQuery.init none).clauses ≠ [] ∧
    (∀ c ∈ (AQLQuery.init none).clauses, c.src = none) ∧
    (build_query 7 [(0, AQLQuery.init none)] 0).1 = .error .missingSource :=
  ⟨rfl, by decide, by decide,
    c6_missing_source_error 6 [(0, AQLQuery.init none)] 0 (AQLQuery.init none)
      rfl (by decide) (by decide)⟩

/-- C7: build_query is a pure, idempotent function of the accumulated
state: it leaves the builder store untouched, and a second call on the
resulting store returns the identical string. -/
theorem c7_build_idempotent (fuel : Nat) (store : Store) (i : Nat) :
    (build_query fuel store i).2 = store ∧
    (build_query fuel (build_query fuel store i).2 i).1 =
      (build_query fuel store i).1 :=
  ⟨rfl, rfl⟩

/-- C8: nesting does not snapshot the child and rendering caches nothing:
mutating a child builder after it was nested (first conjunct: as the
source of a clause appended by nested(); second conjunct: as a
FunctionWrapper argument inside the result mapping) and then building the
parent renders the child's latest state, for every new collection name. -/
theorem c8_no_snapshot_lazy_render (newColl : String) :
    (build_query 8 (Store.set
        [(0, (AQLQuery.init (some "user")).nested 1),
         (1, AQLQuery.init (some "membership"))]
        1 ((AQLQuery.init (some "membership")).over (.coll newColl))) 0).1 =
      .ok ("FOR obj IN user FOR obj1 IN " ++ newColl ++ " RETURN obj") ∧
    (build_query 8 (Store.set
        [(0, (AQLQuery.init (some "user")).result
            (.fields [("user", .str "obj"), ("members", F.LENGTH (.sub 1))])),
         (1, AQLQuery.init (some "membership"))]
        1 ((AQLQuery.init (some "membership")).over (.coll newColl))) 0).1 =
      .ok ("FOR obj IN user RETURN \x7b\"members\": LENGTH( FOR obj IN " ++ newColl ++
        " RETURN obj ), \"user\": obj\x7d") := by
  constructor
  · show Except.ok (((("FOR obj IN user" ++ " ") ++ ("FOR obj1 IN " ++ newColl)) ++ " ") ++
      "RETURN obj") = _
    refine congrArg Except.ok (String.ext ?_)
    simp [List.append_assoc]
  · show Except.ok (("FOR obj IN user" ++ " ") ++ ("RETURN " ++
      (("\x7b" ++
        ((("\"members\": " ++
          (("LENGTH(" ++ ((" " ++ ((("FOR obj IN " ++ newColl) ++ " ") ++ "RETURN obj")) ++ " ")) ++ ")"))
          ++ ", ") ++ "\"user\": obj")) ++ "\x7d"))) = _
    refine congrArg Except.ok (String.ext ?_)
    simp [List.append_assoc]

end ArangoAql

namespace ArangoEdge

/-! ## Lemmas: no `Edge` method ever assigns an attribute named `edge` -/

theorem parse_pres (a : EdgeAttrs) (r : PyVal) :
    lookupKey (Edge.parse_edge_response a r) "edge" = lookupKey a "edge" := by
  simp [Edge.parse_edge_response, lookupKey_setKey_ne]

theorem create_pres (a : EdgeAttrs) (fd td b : PyVal) (st : Int) (r : PyVal) :
    lookupKey (Edge.create a fd td b st r).2 "edge" = lookupKey a "edge" := by
  cases hid : lookupKey a "_id" with
  | none => simp [Edge.create, hid]
  | some idv =>
      by_cases hn : isNone idv = false
      · simp [Edge.create, hid, hn]
      · cases hg : Edge.get a none PyVal.none with
        | error e => simp [Edge.create, hid, hn, hg]
        | ok w =>
            by_cases hs : st = 201 ∨ st = 202 <;>
              simp [Edge.create, hid, hn, hg, hs, parse_pres, lookupKey_setKey_ne]

theorem delete_pres (a : EdgeAttrs) (r : PyVal) :
    lookupKey (Edge.delete a r).2 "edge" = lookupKey a "edge" := by
  unfold Edge.delete
  by_cases hc : codeIs r 204 = true <;>
    simp [hc, parse_pres, lookupKey_setKey_ne]

theorem save_pres (a : EdgeAttrs) (r : PyVal) :
    lookupKey (Edge.save a r).2.1 "edge" = lookupKey a "edge" := by
  cases he : lookupKey a "edge" with
  | none => simp [Edge.save, he]
  | some v =>
      cases v with
      | dict l =>
          by_cases hc : codeIs r 201 = true ∨ codeIs r 202 = true <;>
            simp [Edge.save, he, hc, lookupKey_setKey_ne]
      | none => simp [Edge.save, he]
      | bool x => simp [Edge.save, he]
      | int x => simp [Edge.save, he]
      | str x => simp [Edge.save, he]
      | doc x => simp [Edge.save, he]
      | obj x => simp [Edge.save, he]

theorem updateBody_pres (a1 : EdgeAttrs) (b : PyVal) (s : Bool) (r : PyVal) :
    lookupKey (Edge.updateBody a1 b s r).2.1 "edge" = lookupKey a1 "edge" := by
  cases b with
  | dict bl =>
      cases hg : Edge.get a1 none PyVal.none with
      | error e => simp [Edge.updateBody, hg]
      | ok bv =>
          cases bv with
          | dict cur => cases s <;> simp [Edge.updateBody, hg, save_pres, lookupKey_setKey_ne]
          | none => simp [Edge.updateBody, hg]
          | bool x => simp [Edge.updateBody, hg]
          | int x => simp [Edge.updateBody, hg]
          | str x => simp [Edge.updateBody, hg]
          | doc x => simp [Edge.updateBody, hg]
          | obj x => simp [Edge.updateBody, hg]
  | none => cases s <;> simp [Edge.updateBody, save_pres, lookupKey_setKey_ne]
  | bool x => simp [Edge.updateBody]
  | int x => simp [Edge.updateBody]
  | str x => simp [Edge.updateBody]
  | doc x => simp [Edge.updateBody]
  | obj x => simp [Edge.updateBody]

theorem update_pres (a : EdgeAttrs) (b fd td : PyVal) (s : Bool) (r : PyVal) :
    lookupKey (Edge.update a b fd td s r).2.1 "edge" = lookupKey a "edge" := by
  unfold Edge.update
  by_cases hpre : truthy ((lookupKey a "_id").getD PyVal.none) = false ∨
      truthy ((lookupKey a "_from").getD PyVal.none) = false ∨
      truthy ((lookupKey a "_to").getD PyVal.none) = false
  · simp [hpre]
  · rw [if_neg hpre, updateBody_pres]
    simp [lookupKey_setKey_ne]

theorem fromDoc_pres (a : EdgeAttrs) :
    lookupKey (Edge.from_document a).2 "edge" = lookupKey a "edge" := by
  unfold Edge.from_document
  by_cases h1 : truthy ((lookupKey a "_from").getD PyVal.none) = false
  · simp [h1]
  · by_cases h2 : truthy ((lookupKey a "_from_document").getD PyVal.none) = false <;>
      simp [h1, h2, lookupKey_setKey_ne]

theorem toDoc_pres (a : EdgeAttrs) :
    lookupKey (Edge.to_document a).2 "edge" = lookupKey a "edge" := by
  unfold Edge.to_document
  by_cases h1 : truthy ((lookupKey a "_to").getD PyVal.none) = false
  · simp [h1]
  · by_cases h2 : truthy ((lookupKey a "_to_document").getD PyVal.none) = false <;>
      simp [h1, h2, lookupKey_setKey_ne]

theorem setitem_pres (a : EdgeAttrs) (n : String) (v : PyVal) :
    lookupKey (Edge.setitem a n v).2 "edge" = lookupKey a "edge" := by
  unfold Edge.setitem
  cases hb : lookupKey a "_body" with
  | none => simp
  | some w =>
      cases w with
      | dict l => simp [lookupKey_setKey_ne]
      | none => simp
      | bool x => simp
      | int x => simp
      | str x => simp
      | doc x => simp
      | obj x => simp

/-- No reachable `Edge` attribute state carries an attribute named `edge`:
`__init__` does not create one and no method ever assigns one. -/
theorem edge_never_assigned {a : EdgeAttrs} (h : Reachable a) :
    lookupKey a "edge" = Option.none := by
  induction h with
  | init conn coll idv rev fr toh => rfl
  | parse a r _ ih => rw [parse_pres, ih]
  | create a fd td b st r _ ih => rw [create_pres, ih]
  | delete a r _ ih => rw [delete_pres, ih]
  | update a b fd td s r _ ih => rw [update_pres, ih]
  | save a r _ ih => rw [save_pres, ih]
  | fromDoc a _ ih => rw [fromDoc_pres, ih]
  | toDoc a _ ih => rw [toDoc_pres, ih]
  | setitem a n v _ ih => rw [setitem_pres, ih]

/-- C9: `Edge.save` reads `self.edge`, an attribute no `Edge` operation
ever assigns, so on every reachable `Edge` a direct `save()` fails with
`AttributeError` and issues no HTTP PUT (first conjunct), and
`update(body, ...)` with the default `save=True`, once its precondition
checks pass (truthy `_id`/`_from`/`_to`, body a dict or `None`), fails with
an attribute-access error before any HTTP PUT is issued (second
conjunct). -/
theorem c9_save_reads_unassigned_edge_attribute (a : EdgeAttrs)
    (body fd td resp : PyVal) (hreach : Reachable a)
    (hid : truthy ((lookupKey a "_id").getD PyVal.none) = true)
    (hfr : truthy ((lookupKey a "_from").getD PyVal.none) = true)
    (hto : truthy ((lookupKey a "_to").getD PyVal.none) = true)
    (hbody : body = PyVal.none ∨ ∃ l, body = PyVal.dict l) :
    ((Edge.save a resp).1 = .error (.attributeError "edge") ∧
      (Edge.save a resp).2.2 = []) ∧
    ((∃ n, (Edge.update a body fd td true resp).1 = .error (.attributeError n)) ∧
      (Edge.update a body fd td true resp).2.2 = []) := by
  have hedge := edge_never_assigned hreach
  constructor
  · constructor <;> simp [Edge.save, hedge]
  · have hpre : ¬(truthy ((lookupKey a "_id").getD PyVal.none) = false ∨
        truthy ((lookupKey a "_from").getD PyVal.none) = false ∨
        truthy ((lookupKey a "_to").getD PyVal.none) = false) := by
      simp [hid, hfr, hto]
    unfold Edge.update
    rw [if_neg hpre]
    set a1 := setKey (setKey a "_from"
        (resolveDocId fd ((lookupKey a "_from").getD PyVal.none)))
      "_to" (resolveDocId td ((lookupKey a "_to").getD PyVal.none)) with ha1
    have hedge1 : lookupKey a1 "edge" = Option.none := by
      rw [ha1, lookupKey_setKey_ne _ _ _ _ (by decide),
        lookupKey_setKey_ne _ _ _ _ (by decide), hedge]
    rcases hbody with hb | ⟨l, hb⟩
    · subst hb
      refine ⟨⟨"edge", ?_⟩, ?_⟩ <;> simp [Edge.updateBody, Edge.save, hedge1]
    · subst hb
      cases hbdy : lookupKey a1 "_body" with
      | none =>
          refine ⟨⟨"_body", ?_⟩, ?_⟩ <;>
            simp [Edge.updateBody, Edge.get, getattr, hbdy]
      | some bval =>
          by_cases ht : truthy bval = false
          · refine ⟨⟨"update", ?_⟩, ?_⟩ <;>
              simp [Edge.updateBody, Edge.get, getattr, hbdy, ht]
          · cases bval with
            | dict cur =>
                have hedge2 : lookupKey (setKey a1 "_body"
                    (PyVal.dict (dictUpdate cur l))) "edge" = Option.none := by
                  rw [lookupKey_setKey_ne _ _ _ _ (by decide), hedge1]
                refine ⟨⟨"edge", ?_⟩, ?_⟩ <;>
                  simp [Edge.updateBody, Edge.get, getattr, hbdy, ht, Edge.save, hedge2]
            | none => exact absurd rfl ht
            | bool x =>
                refine ⟨⟨"update", ?_⟩, ?_⟩ <;>
                  simp [Edge.updateBody, Edge.get, getattr, hbdy, ht]
            | int x =>
                refine ⟨⟨"update", ?_⟩, ?_⟩ <;>
                  simp [Edge.updateBody, Edge.get, getattr, hbdy, ht]
            | str x =>
                refine ⟨⟨"update", ?_⟩, ?_⟩ <;>
                  simp [Edge.updateBody, Edge.get, getattr, hbdy, ht]
            | doc x =>
                refine ⟨⟨"update", ?_⟩, ?_⟩ <;>
                  simp [Edge.updateBody, Edge.get, getattr, hbdy, ht]
            | obj x =>
                refine ⟨⟨"update", ?_⟩, ?_⟩ <;>
                  simp [Edge.updateBody, Edge.get, getattr, hbdy, ht]

/-- C9 witness: a freshly constructed `Edge` that already carries id and
vertex handles (as after a successful create): `save` and the save-from-
update flow both die with an attribute-access error and no PUT. -/
theorem c9_save_reads_unassigned_edge_attribute_witness :
    Reachable (Edge.init (.obj 0) (.obj 1) (.str "ec/1") (.str "1")
      (.str "v/1") (.str "v/2")) ∧
    truthy ((lookupKey (Edge.init (.obj 0) (.obj 1) (.str "ec/1") (.str "1")
      (.str "v/1") (.str "v/2")) "_id").getD PyVal.none) = true ∧
    ((Edge.save (Edge.init (.obj 0) (.obj 1) (.str "ec/1") (.str "1")
        (.str "v/1") (.str "v/2")) (.dict [])).1 =
      .error (.attributeError "edge") ∧
      (Edge.save (Edge.init (.obj 0) (.obj 1) (.str "ec/1") (.str "1")
        (.str "v/1") (.str "v/2")) (.dict [])).2.2 = []) ∧
    ((∃ n, (Edge.update (Edge.init (.obj 0) (.obj 1) (.str "ec/1") (.str "1")
        (.str "v/1") (.str "v/2")) PyVal.none PyVal.none PyVal.none true
        (.dict [])).1 = .error (.attributeError n)) ∧
      (Edge.update (Edge.init (.obj 0) (.obj 1) (.str "ec/1") (.str "1")
        (.str "v/1") (.str "v/2")) PyVal.none PyVal.none PyVal.none true
        (.dict [])).2.2 = []) :=
  ⟨Reachable.init (.obj 0) (.obj 1) (.str "ec/1") (.str "1")
      (.str "v/1") (.str "v/2"),
   by decide,
   c9_save_reads_unassigned_edge_attribute
     (Edge.init (.obj 0) (.obj 1) (.str "ec/1") (.str "1") (.str "v/1") (.str "v/2"))
     PyVal.none PyVal.none PyVal.none (.dict [])
     (Reachable.init (.obj 0) (.obj 1) (.str "ec/1") (.str "1")
       (.str "v/1") (.str "v/2"))
     (by decide) (by decide) (by decide) (Or.inl rfl)⟩

end ArangoEdge

namespace ArangoCollections

/-- C10: `Collections.__getattr__` memoizes: on a name not yet cached (and,
Python-side, not a real attribute or method of the class, else
`__getattr__` is never called) the first access constructs a `Collection`
holding the proxy's connection and the requested name and stores it in the
cache, and a subsequent access of the same name returns that identical
cached value with the proxy state unchanged (hence so does every later
access). -/
theorem c10_collections_getattr_memoizes {α : Type} (cs : Collections α)
    (name : String) (hfresh : lookupKey cs.collections name = Option.none) :
    (Collections.getattr cs name).1 =
      Collection.init (some cs.connection) (some name) Option.none true ∧
    lookupKey ((Collections.getattr cs name).2).collections name =
      some ((Collections.getattr cs name).1) ∧
    Collections.getattr (Collections.getattr cs name).2 name =
      ((Collections.getattr cs name).1, (Collections.getattr cs name).2) := by
  simp [Collections.getattr, hfresh, lookupKey_setKey_self]

/-- C10 witness: a fresh proxy (connection modelled by `0`) accessed twice
under the name `users`. -/
theorem c10_collections_getattr_memoizes_witness :
    lookupKey (Collections.init (0 : Nat)).collections "users" = Option.none ∧
    ((Collections.getattr (Collections.init (0 : Nat)) "users").1 =
      Collection.init (some (Collections.init (0 : Nat)).connection)
        (some "users") Option.none true ∧
    lookupKey ((Collections.getattr (Collections.init (0 : Nat)) "users").2).collections
        "users" = some ((Collections.getattr (Collections.init (0 : Nat)) "users").1) ∧
    Collections.getattr (Collections.getattr (Collections.init (0 : Nat)) "users").2
        "users" =
      ((Collections.getattr (Collections.init (0 : Nat)) "users").1,
       (Collections.getattr (Collections.init (0 : Nat)) "users").2)) :=
  ⟨rfl, c10_collections_getattr_memoizes (Collections.init (0 : Nat)) "users" rfl⟩

end ArangoCollections
